import Mathlib

/-!
Verification of the cluster-administration client
(`src/elasticsearch/client/cluster.py`).

The module is a thin binding: each method assembles a URL path from its
arguments, issues exactly one request through a shared transport object
(`self.transport.perform_request(method, path, params, body) -> (status,
body)`), and returns the parsed response body unchanged.

Embedding conventions:
* Python `None`-able string arguments become `Option String`; Python
  truthiness on such a value (`if index:`) is `truthy`.
* The opaque query-parameter object and the opaque request/response bodies
  are type parameters `π` and `β`.
* The transport collaborator is a function from a request and its own
  internal state to a possibly-failing `(status, body)` result and a new
  state; an exception raised by the transport is the `Except.error` case
  and propagates through `Except.map`.
-/

/-- HTTP methods used by the cluster client. -/
inductive HttpMethod where
  | GET
  | POST
  | PUT
deriving DecidableEq, Repr

/-- A request as handed to the transport collaborator's `perform_request`:
method, path, the query-parameter object (absent when `None` in Python),
and an optional body (absent when the Python call passes no `body=`). -/
structure Request (π β : Type) where
  method : HttpMethod
  path : String
  params : Option π
  body : Option β
deriving DecidableEq, Repr

/-- Python truthiness of an optional string argument: `None` and the empty
string are falsy, every other string is truthy. -/
def truthy : Option String → Bool
  | none => false
  | some s => s ≠ ""

/-- The path segments that actually appear: absent (`None`/empty-string)
parts are skipped. -/
def presentParts : List (Option String) → List String
  | [] => []
  | none :: ps => presentParts ps
  | some s :: ps => if s = "" then presentParts ps else s :: presentParts ps

/-- Join a list of path segments with `/`. -/
def joinParts : List String → String
  | [] => ""
  | [p] => p
  | p :: q :: ps => p ++ "/" ++ joinParts (q :: ps)

/-- Modelled from the spec: the helper `_make_path`, imported from `.utils`
(a module of this repository that is not among the sources), builds "a
request path by joining fixed segments with the supplied identifiers,
skipping absent ones". An identifier is absent when it is `None` or the
empty string — the module's docstrings treat the empty string as omission
("use `_all` or empty string to perform the operation on all indices",
"leave empty to get information from all nodes"). The result is prefixed
with `/`. -/
def _make_path (parts : List (Option String)) : String :=
  "/" ++ joinParts (presentParts parts)

/-- The transport collaborator: `perform_request` takes a request and the
transport's own internal state, and either fails (raises) or returns a
`(status_code, parsed_body)` pair, together with the transport's new
state. -/
def TransportFn (σ ε π β : Type) : Type :=
  Request π β → σ → Except ε (Nat × β) × σ

/-- The shape shared by every method body:
`_, data = self.transport.perform_request(...); return data` — one call to
the transport, the status component discarded, the body component returned
as-is, any failure propagated as-is. -/
def callTransport {σ ε π β : Type} (t : TransportFn σ ε π β)
    (req : Request π β) (s : σ) : Except ε β × σ :=
  ((t req s).1.map Prod.snd, (t req s).2)

/-- A transport stub that records calls: it appends each request it is
asked to perform to its state and answers with `f req`. -/
def recordingTransport {ε π β : Type} (f : Request π β → Except ε (Nat × β)) :
    TransportFn (List (Request π β)) ε π β :=
  fun req s => (f req, s ++ [req])

namespace ClusterClient

variable {σ ε π β : Type}

/-- Request built by `health(index=None, params=None)`:
`GET _make_path('_cluster', 'health', index)`, no body. -/
def health_request (index : Option String) (params : Option π) : Request π β :=
  { method := .GET
    path := _make_path [some "_cluster", some "health", index]
    params := params
    body := none }

/-- Operation `health`: one transport call, body component returned. -/
def health (t : TransportFn σ ε π β) (index : Option String)
    (params : Option π) (s : σ) : Except ε β × σ :=
  callTransport t (health_request index params) s

/-- Request built by `pending_tasks(params=None)`:
`GET '/_cluster/pending_tasks'`, no body. -/
def pending_tasks_request (params : Option π) : Request π β :=
  { method := .GET
    path := "/_cluster/pending_tasks"
    params := params
    body := none }

/-- Operation `pending_tasks`: one transport call, body component returned. -/
def pending_tasks (t : TransportFn σ ε π β) (params : Option π) (s : σ) :
    Except ε β × σ :=
  callTransport t (pending_tasks_request params) s

/-- Request built by `state(metric=None, index=None, params=None)`:
`if index and not metric: metric = '_all'`, then
`GET _make_path('_cluster/state', metric, index)`, no body. -/
def state_request (metric index : Option String) (params : Option π) :
    Request π β :=
  let metric := if truthy index && !truthy metric then some "_all" else metric
  { method := .GET
    path := _make_path [some "_cluster/state", metric, index]
    params := params
    body := none }

/-- Operation `state`: one transport call, body component returned. -/
def state (t : TransportFn σ ε π β) (metric index : Option String)
    (params : Option π) (s : σ) : Except ε β × σ :=
  callTransport t (state_request metric index params) s

/-- Request built by `stats(node_id=None, params=None)`:
`url = '/_cluster/stats'; if node_id: url = _make_path('_cluster/stats/nodes',
node_id)`, then `GET url`, no body. -/
def stats_request (node_id : Option String) (params : Option π) :
    Request π β :=
  let url := if truthy node_id
    then _make_path [some "_cluster/stats/nodes", node_id]
    else "/_cluster/stats"
  { method := .GET
    path := url
    params := params
    body := none }

/-- Operation `stats`: one transport call, body component returned. -/
def stats (t : TransportFn σ ε π β) (node_id : Option String)
    (params : Option π) (s : σ) : Except ε β × σ :=
  callTransport t (stats_request node_id params) s

/-- Request built by `reroute(body=None, params=None)`:
`POST '/_cluster/reroute'` with the (optional) body forwarded. -/
def reroute_request (body : Option β) (params : Option π) : Request π β :=
  { method := .POST
    path := "/_cluster/reroute"
    params := params
    body := body }

/-- Operation `reroute`: one transport call, body component returned. -/
def reroute (t : TransportFn σ ε π β) (body : Option β) (params : Option π)
    (s : σ) : Except ε β × σ :=
  callTransport t (reroute_request body params) s

/-- Request built by `get_settings(params=None)`:
`GET '/_cluster/settings'`, no body. -/
def get_settings_request (params : Option π) : Request π β :=
  { method := .GET
    path := "/_cluster/settings"
    params := params
    body := none }

/-- Operation `get_settings`: one transport call, body component returned. -/
def get_settings (t : TransportFn σ ε π β) (params : Option π) (s : σ) :
    Except ε β × σ :=
  callTransport t (get_settings_request params) s

/-- Request built by `put_settings(body, params=None)` — the body parameter
is mandatory in the source (it has no default), hence `body : β`, not
`Option β`: `PUT '/_cluster/settings'` with the body forwarded. -/
def put_settings_request (body : β) (params : Option π) : Request π β :=
  { method := .PUT
    path := "/_cluster/settings"
    params := params
    body := some body }

/-- Operation `put_settings`: one transport call, body component returned. -/
def put_settings (t : TransportFn σ ε π β) (body : β) (params : Option π)
    (s : σ) : Except ε β × σ :=
  callTransport t (put_settings_request body params) s

/-- Request built by
`node_stats(node_id=None, metric_family=None, metric=None, params=None)`:
`if metric and not metric_family: metric_family = 'all'`, then
`GET _make_path('_nodes', node_id, 'stats', metric_family, metric)`,
no body. -/
def node_stats_request (node_id metric_family metric : Option String)
    (params : Option π) : Request π β :=
  let metric_family :=
    if truthy metric && !truthy metric_family then some "all"
    else metric_family
  { method := .GET
    path := _make_path
      [some "_nodes", node_id, some "stats", metric_family, metric]
    params := params
    body := none }

/-- Operation `node_stats`: one transport call, body component returned. -/
def node_stats (t : TransportFn σ ε π β)
    (node_id metric_family metric : Option String) (params : Option π)
    (s : σ) : Except ε β × σ :=
  callTransport t (node_stats_request node_id metric_family metric params) s

/-- Request built by `node_info(node_id=None, metric=None, params=None)`:
`if not node_id and metric: node_id = '_all'`, then
`GET _make_path('_nodes', node_id, metric)`, no body. -/
def node_info_request (node_id metric : Option String) (params : Option π) :
    Request π β :=
  let node_id := if !truthy node_id && truthy metric then some "_all"
    else node_id
  { method := .GET
    path := _make_path [some "_nodes", node_id, metric]
    params := params
    body := none }

/-- Operation `node_info`: one transport call, body component returned. -/
def node_info (t : TransportFn σ ε π β) (node_id metric : Option String)
    (params : Option π) (s : σ) : Except ε β × σ :=
  callTransport t (node_info_request node_id metric params) s

/-- Request built by `node_shutdown(node_id=None, params=None)`:
`POST _make_path('_cluster', 'nodes', node_id, '_shutdown')`, no body. -/
def node_shutdown_request (node_id : Option String) (params : Option π) :
    Request π β :=
  { method := .POST
    path := _make_path [some "_cluster", some "nodes", node_id, some "_shutdown"]
    params := params
    body := none }

/-- Operation `node_shutdown`: one transport call, body component returned. -/
def node_shutdown (t : TransportFn σ ε π β) (node_id : Option String)
    (params : Option π) (s : σ) : Except ε β × σ :=
  callTransport t (node_shutdown_request node_id params) s

end ClusterClient

/-- C1: for every call to `state` with a supplied non-empty index and no
metric, the metric defaults to the all-metrics placeholder `_all` before
the path is built, so the request path places `_all` between
`/_cluster/state` and the index. -/
theorem cluster_state_metric_defaults_to_all (π β : Type) (p : Option π)
    (index : String) (h : index ≠ "") :
    (ClusterClient.state_request none (some index) p : Request π β).path
      = "/_cluster/state/_all/" ++ index := by
  simp [ClusterClient.state_request, truthy, _make_path, presentParts,
    joinParts, h]
  rfl

/-- Witness for C1: `state(index="foo")` with no metric yields the path
`/_cluster/state/_all/foo`. -/
theorem cluster_state_metric_defaults_to_all_witness :
    ("foo" : String) ≠ ""
      ∧ (ClusterClient.state_request none (some "foo") none :
          Request Unit Unit).path = "/_cluster/state/_all/foo" :=
  ⟨by decide, cluster_state_metric_defaults_to_all Unit Unit none "foo"
    (by decide)⟩

/-- C2: `stats` with a supplied non-empty node identifier routes to the
per-node stats path `/_cluster/stats/nodes/{node_id}`, and without one it
uses the cluster-wide path `/_cluster/stats`. -/
theorem cluster_stats_routes_by_node_id (π β : Type) (p : Option π)
    (n : String) (h : n ≠ "") :
    (ClusterClient.stats_request (some n) p : Request π β).path
        = "/_cluster/stats/nodes/" ++ n
      ∧ (ClusterClient.stats_request none p : Request π β).path
        = "/_cluster/stats" := by
  constructor
  · simp [ClusterClient.stats_request, truthy, _make_path, presentParts,
      joinParts, h]
    rfl
  · rfl

/-- Witness for C2: `stats(node_id="n1")` yields `/_cluster/stats/nodes/n1`
while `stats()` yields `/_cluster/stats`. -/
theorem cluster_stats_routes_by_node_id_witness :
    ("n1" : String) ≠ ""
      ∧ ((ClusterClient.stats_request (some "n1") none :
            Request Unit Unit).path = "/_cluster/stats/nodes/n1"
        ∧ (ClusterClient.stats_request none none :
            Request Unit Unit).path = "/_cluster/stats") :=
  ⟨by decide, cluster_stats_routes_by_node_id Unit Unit none "n1" (by decide)⟩

/-- C3: for every call to `node_stats` with a supplied non-empty metric and
no metric family, the family defaults to the all-families placeholder `all`
before the path is built, so the path has the form
`/_nodes/{node_id?}/stats/all/{metric}`. -/
theorem node_stats_family_defaults_to_all (π β : Type) (p : Option π)
    (m : String) (hm : m ≠ "") :
    (ClusterClient.node_stats_request none none (some m) p :
        Request π β).path = "/_nodes/stats/all/" ++ m
      ∧ ∀ n : String, n ≠ "" →
        (ClusterClient.node_stats_request (some n) none (some m) p :
          Request π β).path = "/_nodes/" ++ (n ++ ("/stats/all/" ++ m)) := by
  constructor
  · simp [ClusterClient.node_stats_request, truthy, _make_path, presentParts,
      joinParts, hm]
    rfl
  · intro n hn
    simp [ClusterClient.node_stats_request, truthy, _make_path, presentParts,
      joinParts, hm, hn]
    rw [String.append_assoc n "/" ("stats/" ++ ("all/" ++ m))]
    rw [← String.append_assoc "/" "stats/" ("all/" ++ m)]
    rw [← String.append_assoc ("/" ++ "stats/") "all/" m]
    rfl

/-- Witness for C3: `node_stats(metric="docs")` yields `/_nodes/stats/all/docs`,
and `node_stats(node_id="n1", metric="docs")` yields
`/_nodes/n1/stats/all/docs`. -/
theorem node_stats_family_defaults_to_all_witness :
    ("docs" : String) ≠ "" ∧ ("n1" : String) ≠ ""
      ∧ (ClusterClient.node_stats_request none none (some "docs") none :
          Request Unit Unit).path = "/_nodes/stats/all/docs"
      ∧ (ClusterClient.node_stats_request (some "n1") none (some "docs") none :
          Request Unit Unit).path = "/_nodes/n1/stats/all/docs" :=
  ⟨by decide, by decide,
    (node_stats_family_defaults_to_all Unit Unit none "docs" (by decide)).1,
    (node_stats_family_defaults_to_all Unit Unit none "docs" (by decide)).2
      "n1" (by decide)⟩

/-- C4: for every call to `node_info` with a supplied non-empty metric and
no node identifier, the node identifier defaults to the all-nodes
placeholder `_all` before the path is built, so the path is
`/_nodes/_all/{metric}`. -/
theorem node_info_node_id_defaults_to_all (π β : Type) (p : Option π)
    (m : String) (hm : m ≠ "") :
    (ClusterClient.node_info_request none (some m) p : Request π β).path
      = "/_nodes/_all/" ++ m := by
  simp [ClusterClient.node_info_request, truthy, _make_path, presentParts,
    joinParts, hm]
  rfl

/-- Witness for C4: `node_info(metric="os")` yields `/_nodes/_all/os`. -/
theorem node_info_node_id_defaults_to_all_witness :
    ("os" : String) ≠ ""
      ∧ (ClusterClient.node_info_request none (some "os") none :
          Request Unit Unit).path = "/_nodes/_all/os" :=
  ⟨by decide, node_info_node_id_defaults_to_all Unit Unit none "os"
    (by decide)⟩

/-- C5: every operation called with no optional arguments issues its
documented HTTP method and exactly its documented base path, with no
extraneous path segments. -/
theorem base_paths_no_optional_args :
    ((ClusterClient.health_request none none : Request Unit Unit).method
        = .GET
      ∧ (ClusterClient.health_request none none : Request Unit Unit).path
        = "/_cluster/health")
  ∧ ((ClusterClient.pending_tasks_request none : Request Unit Unit).method
        = .GET
      ∧ (ClusterClient.pending_tasks_request none : Request Unit Unit).path
        = "/_cluster/pending_tasks")
  ∧ ((ClusterClient.state_request none none none : Request Unit Unit).method
        = .GET
      ∧ (ClusterClient.state_request none none none : Request Unit Unit).path
        = "/_cluster/state")
  ∧ ((ClusterClient.stats_request none none : Request Unit Unit).method
        = .GET
      ∧ (ClusterClient.stats_request none none : Request Unit Unit).path
        = "/_cluster/stats")
  ∧ ((ClusterClient.reroute_request none none : Request Unit Unit).method
        = .POST
      ∧ (ClusterClient.reroute_request none none : Request Unit Unit).path
        = "/_cluster/reroute")
  ∧ ((ClusterClient.get_settings_request none : Request Unit Unit).method
        = .GET
      ∧ (ClusterClient.get_settings_request none : Request Unit Unit).path
        = "/_cluster/settings")
  ∧ ((ClusterClient.put_settings_request () none : Request Unit Unit).method
        = .PUT
      ∧ (ClusterClient.put_settings_request () none : Request Unit Unit).path
        = "/_cluster/settings")
  ∧ ((ClusterClient.node_stats_request none none none none :
        Request Unit Unit).method = .GET
      ∧ (ClusterClient.node_stats_request none none none none :
          Request Unit Unit).path = "/_nodes/stats")
  ∧ ((ClusterClient.node_info_request none none none :
        Request Unit Unit).method = .GET
      ∧ (ClusterClient.node_info_request none none none :
          Request Unit Unit).path = "/_nodes")
  ∧ ((ClusterClient.node_shutdown_request none none :
        Request Unit Unit).method = .POST
      ∧ (ClusterClient.node_shutdown_request none none :
          Request Unit Unit).path = "/_cluster/nodes/_shutdown") := by
  decide

/-- Helper: mapping the status away preserves exactly the error case. -/
theorem map_snd_error_iff {ε β : Type} (r : Except ε (Nat × β)) (e : ε) :
    r.map Prod.snd = Except.error e ↔ r = Except.error e := by
  cases r <;> simp [Except.map]

/-- C6: for every operation and every argument combination, the value
returned to the caller is exactly the parsed-body component of the
transport's `(status, body)` result — the status is discarded unread and
the body is passed through `Except.map Prod.snd` with no inspection,
transformation, or status-code branching. -/
theorem returns_transport_body_unmodified (σ ε π β : Type)
    (t : TransportFn σ ε π β) (s : σ) (i n mf m : Option String)
    (p : Option π) (ob : Option β) (b : β) :
    (ClusterClient.health t i p s).1
        = ((t (ClusterClient.health_request i p) s).1).map Prod.snd
  ∧ (ClusterClient.pending_tasks t p s).1
        = ((t (ClusterClient.pending_tasks_request p) s).1).map Prod.snd
  ∧ (ClusterClient.state t m i p s).1
        = ((t (ClusterClient.state_request m i p) s).1).map Prod.snd
  ∧ (ClusterClient.stats t n p s).1
        = ((t (ClusterClient.stats_request n p) s).1).map Prod.snd
  ∧ (ClusterClient.reroute t ob p s).1
        = ((t (ClusterClient.reroute_request ob p) s).1).map Prod.snd
  ∧ (ClusterClient.get_settings t p s).1
        = ((t (ClusterClient.get_settings_request p) s).1).map Prod.snd
  ∧ (ClusterClient.put_settings t b p s).1
        = ((t (ClusterClient.put_settings_request b p) s).1).map Prod.snd
  ∧ (ClusterClient.node_stats t n mf m p s).1
        = ((t (ClusterClient.node_stats_request n mf m p) s).1).map Prod.snd
  ∧ (ClusterClient.node_info t n m p s).1
        = ((t (ClusterClient.node_info_request n m p) s).1).map Prod.snd
  ∧ (ClusterClient.node_shutdown t n p s).1
        = ((t (ClusterClient.node_shutdown_request n p) s).1).map Prod.snd :=
  ⟨rfl, rfl, rfl, rfl, rfl, rfl, rfl, rfl, rfl, rfl⟩

/-- C7: every operation invokes the transport's `perform_request` exactly
once per call and mutates no local state of the client (the client holds no
state beyond the injected transport). Run against the recording transport
stub, each operation extends the recorded call list by exactly the one
request it is documented to issue; and against an arbitrary transport the
only state change after a call is the transport's own state change from
that single request. -/
theorem exactly_one_transport_call (σ ε π β : Type)
    (f : Request π β → Except ε (Nat × β)) (s : List (Request π β))
    (t : TransportFn σ ε π β) (s₀ : σ) (i n mf m : Option String)
    (p : Option π) (ob : Option β) (b : β) :
    ((ClusterClient.health (recordingTransport f) i p s).2
        = s ++ [ClusterClient.health_request i p]
      ∧ (ClusterClient.pending_tasks (recordingTransport f) p s).2
        = s ++ [ClusterClient.pending_tasks_request p]
      ∧ (ClusterClient.state (recordingTransport f) m i p s).2
        = s ++ [ClusterClient.state_request m i p]
      ∧ (ClusterClient.stats (recordingTransport f) n p s).2
        = s ++ [ClusterClient.stats_request n p]
      ∧ (ClusterClient.reroute (recordingTransport f) ob p s).2
        = s ++ [ClusterClient.reroute_request ob p]
      ∧ (ClusterClient.get_settings (recordingTransport f) p s).2
        = s ++ [ClusterClient.get_settings_request p]
      ∧ (ClusterClient.put_settings (recordingTransport f) b p s).2
        = s ++ [ClusterClient.put_settings_request b p]
      ∧ (ClusterClient.node_stats (recordingTransport f) n mf m p s).2
        = s ++ [ClusterClient.node_stats_request n mf m p]
      ∧ (ClusterClient.node_info (recordingTransport f) n m p s).2
        = s ++ [ClusterClient.node_info_request n m p]
      ∧ (ClusterClient.node_shutdown (recordingTransport f) n p s).2
        = s ++ [ClusterClient.node_shutdown_request n p])
  ∧ ((ClusterClient.health t i p s₀).2
        = (t (ClusterClient.health_request i p) s₀).2
      ∧ (ClusterClient.pending_tasks t p s₀).2
        = (t (ClusterClient.pending_tasks_request p) s₀).2
      ∧ (ClusterClient.state t m i p s₀).2
        = (t (ClusterClient.state_request m i p) s₀).2
      ∧ (ClusterClient.stats t n p s₀).2
        = (t (ClusterClient.stats_request n p) s₀).2
      ∧ (ClusterClient.reroute t ob p s₀).2
        = (t (ClusterClient.reroute_request ob p) s₀).2
      ∧ (ClusterClient.get_settings t p s₀).2
        = (t (ClusterClient.get_settings_request p) s₀).2
      ∧ (ClusterClient.put_settings t b p s₀).2
        = (t (ClusterClient.put_settings_request b p) s₀).2
      ∧ (ClusterClient.node_stats t n mf m p s₀).2
        = (t (ClusterClient.node_stats_request n mf m p) s₀).2
      ∧ (ClusterClient.node_info t n m p s₀).2
        = (t (ClusterClient.node_info_request n m p) s₀).2
      ∧ (ClusterClient.node_shutdown t n p s₀).2
        = (t (ClusterClient.node_shutdown_request n p) s₀).2) :=
  ⟨⟨rfl, rfl, rfl, rfl, rfl, rfl, rfl, rfl, rfl, rfl⟩,
    ⟨rfl, rfl, rfl, rfl, rfl, rfl, rfl, rfl, rfl, rfl⟩⟩

/-- C8: for every operation, the call fails exactly when the transport's
`perform_request` fails, and the failure reaching the caller is the
transport's failure unmodified — no operation catches, translates, or
retries a transport-level error. -/
theorem transport_errors_propagate_unmodified (σ ε π β : Type)
    (t : TransportFn σ ε π β) (s : σ) (i n mf m : Option String)
    (p : Option π) (ob : Option β) (b : β) (e : ε) :
    ((ClusterClient.health t i p s).1 = Except.error e
        ↔ (t (ClusterClient.health_request i p) s).1 = Except.error e)
  ∧ ((ClusterClient.pending_tasks t p s).1 = Except.error e
        ↔ (t (ClusterClient.pending_tasks_request p) s).1 = Except.error e)
  ∧ ((ClusterClient.state t m i p s).1 = Except.error e
        ↔ (t (ClusterClient.state_request m i p) s).1 = Except.error e)
  ∧ ((ClusterClient.stats t n p s).1 = Except.error e
        ↔ (t (ClusterClient.stats_request n p) s).1 = Except.error e)
  ∧ ((ClusterClient.reroute t ob p s).1 = Except.error e
        ↔ (t (ClusterClient.reroute_request ob p) s).1 = Except.error e)
  ∧ ((ClusterClient.get_settings t p s).1 = Except.error e
        ↔ (t (ClusterClient.get_settings_request p) s).1 = Except.error e)
  ∧ ((ClusterClient.put_settings t b p s).1 = Except.error e
        ↔ (t (ClusterClient.put_settings_request b p) s).1 = Except.error e)
  ∧ ((ClusterClient.node_stats t n mf m p s).1 = Except.error e
        ↔ (t (ClusterClient.node_stats_request n mf m p) s).1
            = Except.error e)
  ∧ ((ClusterClient.node_info t n m p s).1 = Except.error e
        ↔ (t (ClusterClient.node_info_request n m p) s).1 = Except.error e)
  ∧ ((ClusterClient.node_shutdown t n p s).1 = Except.error e
        ↔ (t (ClusterClient.node_shutdown_request n p) s).1
            = Except.error e) :=
  ⟨map_snd_error_iff _ e, map_snd_error_iff _ e, map_snd_error_iff _ e,
    map_snd_error_iff _ e, map_snd_error_iff _ e, map_snd_error_iff _ e,
    map_snd_error_iff _ e, map_snd_error_iff _ e, map_snd_error_iff _ e,
    map_snd_error_iff _ e⟩

/-- C9: the defaulting and routing conditionals trigger on truthiness, not
argument presence — an empty-string identifier behaves exactly like an
absent one: `state(index="")` with no metric does not insert the
all-metrics placeholder, `stats(node_id="")` routes to the cluster-wide
path, `node_stats(metric="")` does not default the metric family, and
`node_info(node_id="", metric="os")` defaults the node identifier to
`_all`. -/
theorem empty_string_behaves_as_absent :
    ((ClusterClient.state_request none (some "") none :
          Request Unit Unit).path = "/_cluster/state"
      ∧ (ClusterClient.state_request none (some "") none : Request Unit Unit)
          = ClusterClient.state_request none none none)
  ∧ ((ClusterClient.stats_request (some "") none :
          Request Unit Unit).path = "/_cluster/stats"
      ∧ (ClusterClient.stats_request (some "") none : Request Unit Unit)
          = ClusterClient.stats_request none none)
  ∧ ((ClusterClient.node_stats_request none none (some "") none :
          Request Unit Unit).path = "/_nodes/stats"
      ∧ (ClusterClient.node_stats_request none none (some "") none :
            Request Unit Unit)
          = ClusterClient.node_stats_request none none none none)
  ∧ (ClusterClient.node_info_request (some "") (some "os") none :
        Request Unit Unit).path = "/_nodes/_all/os" := by
  decide

/-- C10: only `reroute` and `put_settings` forward a request body to the
transport; every other operation, including the POST operation
`node_shutdown`, issues its request with no body. `reroute`'s body is
optional and forwarded as given (possibly absent), while `put_settings`'s
body argument is mandatory (it has no default — its embedding takes `β`,
not `Option β`) and is always forwarded. -/
theorem only_reroute_and_put_settings_send_body (π β : Type) (p : Option π)
    (b : β) (ob : Option β) (i n mf m : Option String) :
    (ClusterClient.health_request i p : Request π β).body = none
  ∧ (ClusterClient.pending_tasks_request p : Request π β).body = none
  ∧ (ClusterClient.state_request m i p : Request π β).body = none
  ∧ (ClusterClient.stats_request n p : Request π β).body = none
  ∧ (ClusterClient.get_settings_request p : Request π β).body = none
  ∧ (ClusterClient.node_stats_request n mf m p : Request π β).body = none
  ∧ (ClusterClient.node_info_request n m p : Request π β).body = none
  ∧ (ClusterClient.node_shutdown_request n p : Request π β).body = none
  ∧ (ClusterClient.reroute_request ob p).body = ob
  ∧ (ClusterClient.reroute_request (none : Option β) p).body = none
  ∧ (ClusterClient.put_settings_request b p).body = some b :=
  ⟨rfl, rfl, rfl, rfl, rfl, rfl, rfl, rfl, rfl, rfl, rfl⟩
